import Mathlib

/-!
# kuberhealthy test-check: configuration resolution and reporting lifecycle

A shallow embedding of `cmd/test-check/checkConfig.go` and `cmd/test-check/main.go`.

* Go's `time.Duration` is an `int64` count of nanoseconds; it is modelled as an `Int`,
  with the saturation of `Time.Sub` made explicit.
* A Go function returning `(value, error)` is modelled as a pair whose second component
  is `none` for a nil error.
* Everything the program obtains from outside (environment, clock, deadline source,
  readiness probe, result transport, `time.ParseDuration`) is a field of `World`.
* The effects of `main` are recorded as a trace of time-stamped events, the clock being
  passed explicitly; the timer of the timeout watcher ends the process when it fires
  before `main` has returned. The logrus calls `Infoln`, `Warnln` and `Errorln` only
  write a log line (none of them exits), so they are not recorded.
-/

namespace TestCheck

/-! ## Go library: durations and instants -/

/-- Go `time.Duration`: a signed 64-bit count of nanoseconds. -/
abbrev Duration := Int

def Nanosecond : Duration := 1
def Microsecond : Duration := 1000 * Nanosecond
def Millisecond : Duration := 1000 * Microsecond
def Second : Duration := 1000 * Millisecond
def Minute : Duration := 60 * Second
def Hour : Duration := 60 * Minute

/-- Smallest value of a `time.Duration` (`-1 << 63`). -/
def minDuration : Duration := -9223372036854775808

/-- Largest value of a `time.Duration` (`1<<63 - 1`), a little over 292 years. -/
def maxDuration : Duration := 9223372036854775807

/-- Go `time.Time`, as the instant it denotes: nanoseconds since the Unix epoch. -/
structure Time where
  unixNano : Int
deriving DecidableEq, Repr

/-- Go `Time.Add`: the instant `t + d`. -/
def Time.Add (t : Time) (d : Duration) : Time := ⟨t.unixNano + d⟩

/-- Go `Time.Sub`: the duration `t - u`; when the result exceeds the largest (or
smallest) value a `Duration` can store, the largest (or smallest) duration is returned. -/
def Time.Sub (t u : Time) : Duration :=
  let d := t.unixNano - u.unixNano
  if d > maxDuration then maxDuration
  else if d < minDuration then minDuration
  else d

/-! ## Go library: error values -/

/-- Go `error` values that occur in the program. -/
inductive GoError where
  /-- A `*strconv.NumError` with `Err = strconv.ErrSyntax`. -/
  | numError (fn num : String)
  /-- An error made by `errors.New(text)` (or `fmt.Errorf` without a wrapped error). -/
  | errorsNew (text : String)
  /-- An error made by `fmt.Errorf(pre + "%w", err)`. -/
  | wrapf (pre : String) (err : GoError)
deriving DecidableEq, Repr

/-- The double quote character. -/
def dquote : Char := Char.ofNat 34

/-- The backslash character. -/
def bslash : Char := Char.ofNat 92

/-- Lower-case hexadecimal digit of a number below 16. -/
def lowerhex (n : Nat) : Char :=
  if n < 10 then Char.ofNat (48 + n) else Char.ofNat (87 + n)

/-- Escaping of one character by `strconv.Quote`, exact for the ASCII range. Characters
outside ASCII are passed through: Go does so for the printable ones only, and escapes
the others with their code point. Only the text of a message depends on it. -/
def quoteChar (c : Char) : List Char :=
  if c = dquote then [bslash, dquote]
  else if c = bslash then [bslash, bslash]
  else if c.toNat = 7 then [bslash, 'a']
  else if c.toNat = 8 then [bslash, 'b']
  else if c.toNat = 12 then [bslash, 'f']
  else if c.toNat = 10 then [bslash, 'n']
  else if c.toNat = 13 then [bslash, 'r']
  else if c.toNat = 9 then [bslash, 't']
  else if c.toNat = 11 then [bslash, 'v']
  else if c.toNat < 32 ∨ c.toNat = 127 then
    [bslash, 'x', lowerhex (c.toNat / 16), lowerhex (c.toNat % 16)]
  else [c]

/-- Go `strconv.Quote`: a double-quoted Go string literal for `s`. -/
def Quote (s : String) : String :=
  String.mk ([dquote] ++ s.data.flatMap quoteChar ++ [dquote])

/-- The `Error()` method: the message of an error value. -/
def GoError.Error : GoError → String
  | .numError fn num => "strconv." ++ fn ++ ": parsing " ++ Quote num ++ ": invalid syntax"
  | .errorsNew text => text
  | .wrapf pre err => pre ++ err.Error

/-! ## Go library: `strconv.ParseBool` -/

/-- Go `strconv.ParseBool`: accepts 1, t, T, TRUE, true, True, 0, f, F, FALSE, false,
False; any other value returns an error. -/
def ParseBool (str : String) : Bool × Option GoError :=
  if str = "1" ∨ str = "t" ∨ str = "T" ∨ str = "true" ∨ str = "TRUE" ∨ str = "True" then
    (true, none)
  else if str = "0" ∨ str = "f" ∨ str = "F" ∨ str = "false" ∨ str = "FALSE"
      ∨ str = "False" then
    (false, none)
  else
    (false, some (GoError.numError "ParseBool" str))

/-! ## Go library: `time.ParseDuration`

A model of the standard parser, used as the concrete parser of example worlds. The
general results below hold for whatever parser a `World` carries. -/

/-- Go `time.quote`, the quoting used in the messages of `time.ParseDuration`. -/
def timeQuote (s : String) : String :=
  String.mk ([dquote] ++ s.data.flatMap (fun c =>
    if c.toNat ≥ 128 ∨ c.toNat < 32 then
      (String.utf8EncodeChar c).flatMap (fun b =>
        [bslash, 'x', lowerhex (b.toNat / 16), lowerhex (b.toNat % 16)])
    else if c = dquote ∨ c = bslash then [bslash, c]
    else [c]) ++ [dquote])

/-- Go `time.leadingInt`: consumes the leading `[0-9]*` of `s`, starting from the
accumulated value `x`; `none` is the overflow error. -/
def leadingInt : List Char → Nat → Option (Nat × List Char)
  | [], x => some (x, [])
  | c :: cs, x =>
    if c.isDigit then
      if x > 2 ^ 63 / 10 then none
      else
        let y := x * 10 + (c.toNat - 48)
        if y > 2 ^ 63 then none else leadingInt cs y
    else some (x, c :: cs)

/-- Go `time.leadingFraction`: consumes the leading `[0-9]*` of `s`; returns the digits
read as a number, the power of ten they are scaled by, and the rest. Digits that would
overflow are skipped. -/
def leadingFraction : List Char → Nat → Nat → Bool → Nat × Nat × List Char
  | [], x, scale, _ => (x, scale, [])
  | c :: cs, x, scale, overflow =>
    if c.isDigit then
      if overflow then leadingFraction cs x scale true
      else if x > (2 ^ 63 - 1) / 10 then leadingFraction cs x scale true
      else
        let y := x * 10 + (c.toNat - 48)
        if y > 2 ^ 63 then leadingFraction cs x scale true
        else leadingFraction cs y (scale * 10) false
    else (x, scale, c :: cs)

/-- Go `time.unitMap`. -/
def unitMap (u : String) : Option Nat :=
  if u = "ns" then some 1
  else if u = "us" then some 1000
  else if u = "µs" then some 1000
  else if u = "μs" then some 1000
  else if u = "ms" then some 1000000
  else if u = "s" then some 1000000000
  else if u = "m" then some 60000000000
  else if u = "h" then some 3600000000000
  else none

/-- The loop of `time.ParseDuration` over the terms `[0-9]*(\.[0-9]*)?[a-z]+` of the
string; `d` is the sum so far (a `uint64`), `orig` the whole input (for messages).
Every round consumes at least one character, so with `fuel` the length of the rest the
rest is empty when the fuel is used up. The fraction `f/scale` of a unit, which Go
computes in `float64`, is computed exactly. -/
def parseTerms (orig : String) : Nat → List Char → Nat → Nat × Option GoError
  | 0, _, d => (d, none)
  | fuel + 1, s, d =>
    match s with
    | [] => (d, none)
    | c :: _ =>
      if ¬ (c = '.' ∨ c.isDigit) then
        (0, some (.errorsNew ("time: invalid duration " ++ timeQuote orig)))
      else
        match leadingInt s 0 with
        | none => (0, some (.errorsNew ("time: invalid duration " ++ timeQuote orig)))
        | some (v, s1) =>
          let pre := s.length ≠ s1.length
          let r := match s1 with
            | '.' :: s2 =>
              let (f, scale, s3) := leadingFraction s2 0 1 false
              (f, scale, s3, decide (s2.length ≠ s3.length))
            | _ => (0, 1, s1, false)
          let f := r.1
          let scale := r.2.1
          let s3 := r.2.2.1
          let post := r.2.2.2
          if ¬ pre ∧ ¬ post then
            (0, some (.errorsNew ("time: invalid duration " ++ timeQuote orig)))
          else
            let u := s3.takeWhile (fun c => ¬ (c = '.' ∨ c.isDigit))
            let s4 := s3.dropWhile (fun c => ¬ (c = '.' ∨ c.isDigit))
            if u.length = 0 then
              (0, some (.errorsNew ("time: missing unit in duration " ++ timeQuote orig)))
            else
              match unitMap (String.mk u) with
              | none =>
                (0, some (.errorsNew ("time: unknown unit " ++ timeQuote (String.mk u)
                  ++ " in duration " ++ timeQuote orig)))
              | some unit =>
                if v > 2 ^ 63 / unit then
                  (0, some (.errorsNew ("time: invalid duration " ++ timeQuote orig)))
                else
                  let v1 := v * unit
                  let v2 := if f > 0 then v1 + f * unit / scale else v1
                  if f > 0 ∧ v2 > 2 ^ 63 then
                    (0, some (.errorsNew ("time: invalid duration " ++ timeQuote orig)))
                  else
                    let d1 := (d + v2) % 2 ^ 64
                    if d1 > 2 ^ 63 then
                      (0, some (.errorsNew ("time: invalid duration " ++ timeQuote orig)))
                    else parseTerms orig fuel s4 d1

/-- Go `time.ParseDuration`: a possibly signed sequence of decimal numbers, each with
an optional fraction and a unit suffix, such as "300ms", "-1.5h" or "2h45m". -/
def ParseDuration (orig : String) : Duration × Option GoError :=
  let neg := orig.data.head? = some '-'
  let s := match orig.data with
    | c :: cs => if c = '-' ∨ c = '+' then cs else c :: cs
    | [] => []
  if s = ['0'] then (0, none)
  else if s = [] then (0, some (.errorsNew ("time: invalid duration " ++ timeQuote orig)))
  else
    match parseTerms orig s.length s 0 with
    | (_, some e) => (0, some e)
    | (d, none) =>
      if neg then (-(d : Int), none)
      else if d > 2 ^ 63 - 1 then
        (0, some (.errorsNew ("time: invalid duration " ++ timeQuote orig)))
      else ((d : Int), none)

/-! ## The outside world -/

/-- Everything one run of the program reads from outside. -/
structure World where
  /-- The process environment: `none` for a variable that is not set. -/
  env : String → Option String
  /-- Result of `checkclient.GetDeadline()`. -/
  GetDeadline : Time × Option GoError
  /-- Result of the call to `time.Now()` in `getTimeLimit`. -/
  Now : Time
  /-- The function `time.ParseDuration`. -/
  ParseDuration : String → Duration × Option GoError
  /-- Result of `nodecheck.WaitForKuberhealthy(ctx)`. -/
  WaitForKuberhealthy : Option GoError
  /-- Result of `checkclient.ReportSuccess()`. -/
  ReportSuccess : Option GoError
  /-- Result of `checkclient.ReportFailure(reasons)`. -/
  ReportFailure : List String → Option GoError
  /-- Nanoseconds the readiness wait blocks for. -/
  waitNanos : Nat
  /-- Nanoseconds a call of the result transport takes. -/
  reportNanos : Nat

/-- Go `os.Getenv`: the value of the variable, which is empty when it is not set. -/
def Getenv (w : World) (key : String) : String :=
  match w.env key with
  | some v => v
  | none => ""

/-! ## `checkConfig.go` -/

def reportFailureEnv : String := "REPORT_FAILURE"
def reportDelayEnv : String := "REPORT_DELAY"
def timeLimitSkew : Duration := Second * 5
def defaultTimeLimit : Duration := Minute * 10
def defaultReportDelay : Duration := Second * 5

/-- CheckConfig stores the configuration used to run the test check. -/
structure CheckConfig where
  ReportFailure : Bool
  ReportDelay : Duration
  TimeLimit : Duration
deriving DecidableEq, Repr

/-- Source `parseReportFailure`: reads the REPORT_FAILURE environment variable. -/
def parseReportFailure (w : World) : Bool × Option GoError :=
  let reportFailureStr := Getenv w reportFailureEnv
  if reportFailureStr.length = 0 then (false, none)
  else
    match ParseBool reportFailureStr with
    | (_, some err) =>
      (false, some (.wrapf ("failed to parse " ++ reportFailureEnv ++ " env var: ") err))
    | (reportFailure, none) => (reportFailure, none)

/-- Source `parseReportDelay`: reads the REPORT_DELAY environment variable. -/
def parseReportDelay (w : World) : Duration × Option GoError :=
  let reportDelayStr := Getenv w reportDelayEnv
  if reportDelayStr.length = 0 then (defaultReportDelay, none)
  else
    match w.ParseDuration reportDelayStr with
    | (_, some err) =>
      (0, some (.wrapf ("failed to parse " ++ reportDelayEnv ++ " env var: ") err))
    | (reportDelay, none) => (reportDelay, none)

/-- Source `getTimeLimit`: reads the check deadline and returns a safe time limit. -/
def getTimeLimit (w : World) : Duration × Option GoError :=
  match w.GetDeadline with
  | (_, some err) => (defaultTimeLimit, some err)
  | (deadline, none) =>
    let timeLimit := deadline.Sub (w.Now.Add timeLimitSkew)
    if timeLimit ≤ 0 then
      (defaultTimeLimit, some (.errorsNew "check deadline is too soon to honor"))
    else (timeLimit, none)

/-- Source `loadConfig`: reads the environment variables and builds the check
configuration. An error of `getTimeLimit` is only logged. -/
def loadConfig (w : World) : Option CheckConfig × Option GoError :=
  match parseReportFailure w with
  | (_, some err) => (none, some err)
  | (reportFailure, none) =>
    match parseReportDelay w with
    | (_, some err) => (none, some err)
    | (reportDelay, none) =>
      let timeLimit := (getTimeLimit w).1
      (some { ReportFailure := reportFailure, ReportDelay := reportDelay,
              TimeLimit := timeLimit }, none)

/-! ## `main.go`

The timer armed by `startTimeoutWatcher` runs `exitOnTimeout` on a goroutine of its own.
When it expires while the main goroutine is still blocked in the readiness wait or in
the call of the result transport, the process exits there, with the status of
`exitOnTimeout`; when `main` returns first, the process ends with status 0 and the timer
dies with it. An event is recorded when its call begins. When the timer expires at the
very instant a call returns, the main goroutine is taken to go on. -/

/-- The effects of the program on the outside. -/
inductive Event where
  /-- A call `time.Sleep(d)`. -/
  | Sleep (d : Duration)
  /-- A call `time.AfterFunc(d, exitOnTimeout)`: the timeout watcher is armed. -/
  | AfterFunc (d : Duration)
  /-- A call `nodecheck.WaitForKuberhealthy(ctx)`. -/
  | WaitForKuberhealthy
  /-- A call `checkclient.ReportSuccess()`. -/
  | ReportSuccess
  /-- A call `checkclient.ReportFailure(reasons)`. -/
  | ReportFailure (reasons : List String)
deriving DecidableEq, Repr

/-- State of the running process: the time elapsed, in nanoseconds, since the
configuration was loaded (when `getTimeLimit` read the clock), and the events so far,
each with the time at which it began. -/
structure Proc where
  clock : Int
  trace : List (Int × Event)
deriving DecidableEq, Repr

/-- The process at its start. -/
def Proc.start : Proc := { clock := 0, trace := [] }

/-- Records the event `e`, which takes `took` nanoseconds. -/
def Proc.emit (p : Proc) (e : Event) (took : Int) : Proc :=
  { clock := p.clock + took, trace := p.trace ++ [(p.clock, e)] }

/-- Go `time.Sleep`: pauses for the duration `d`; a negative or zero duration returns
immediately. -/
def Sleep (d : Duration) (p : Proc) : Proc :=
  p.emit (.Sleep d) (if d ≤ 0 then 0 else d)

/-- Source `exitOnTimeout`: logs a timeout message and exits with failure; the result
is the exit status. It runs on the goroutine of the timer, when the timer fires. -/
def exitOnTimeout : Nat := 1

/-- Source `startTimeoutWatcher`: schedules a forced exit when the check time limit
expires; a non-positive limit is skipped. -/
def startTimeoutWatcher (timeLimit : Duration) (p : Proc) : Proc :=
  if timeLimit ≤ 0 then p
  else p.emit (.AfterFunc timeLimit) 0

/-- Source `reportCheckResult`: reports success or failure based on the
configuration; returns the error of the call. -/
def reportCheckResult (w : World) (cfg : CheckConfig) (p : Proc) : Option GoError × Proc :=
  if cfg.ReportFailure then
    (w.ReportFailure ["Test has failed!"],
      p.emit (.ReportFailure ["Test has failed!"]) w.reportNanos)
  else
    (w.ReportSuccess, p.emit .ReportSuccess w.reportNanos)

/-- Source `reportFailureAndExit`: reports a configuration error and exits; the result
is the exit status. An error of the report is only logged. -/
def reportFailureAndExit (w : World) (err : GoError) (p : Proc) : Nat × Proc :=
  let p1 := p.emit (.ReportFailure [err.Error]) w.reportNanos
  match w.ReportFailure [err.Error] with
  | some _ => (1, p1)
  | none => (1, p1)

/-- The time at which the armed timeout watcher fires, if the process still runs. -/
def firesAt : List (Int × Event) → Option Int
  | [] => none
  | (t, .AfterFunc d) :: _ => some (t + d)
  | _ :: tr => firesAt tr

/-- The forced exit: the time at which the armed timer fired, when it did so before the
time the main goroutine has reached in `p`. -/
def timedOut (p : Proc) : Option Int :=
  match firesAt p.trace with
  | some f => if f < p.clock then some f else none
  | none => none

/-- Source `main`: loads configuration, waits for the delay, and reports the test
result. The result is the exit status of the process and its final state: a return
from `main` ends a Go process with status 0, and the timer armed by
`startTimeoutWatcher` ends it with the status of `exitOnTimeout` when it fires during
the readiness wait or during the report. An error of the readiness wait or of the
report is only logged. The two debug switches and the log line with the reporting URL
do not bear on what follows and are left out. (A nil configuration with a nil error,
which `loadConfig` never returns, would make the dereference panic: status 2.) -/
def main (w : World) : Nat × Proc :=
  match loadConfig w with
  | (_, some err) => reportFailureAndExit w err Proc.start
  | (none, none) => (2, Proc.start)
  | (some cfg, none) =>
    let p1 := Sleep cfg.ReportDelay Proc.start
    let p2 := startTimeoutWatcher cfg.TimeLimit p1
    let p3 := p2.emit .WaitForKuberhealthy w.waitNanos
    match timedOut p3 with
    | some f => (exitOnTimeout, { p3 with clock := f })
    | none =>
      let p4 := match w.WaitForKuberhealthy with
        | some _ => p3
        | none => p3
      match reportCheckResult w cfg p4 with
      | (err, p5) =>
        match timedOut p5 with
        | some f => (exitOnTimeout, { p5 with clock := f })
        | none =>
          match err with
          | some _ => (0, p5)
          | none => (0, p5)

/-- The verdict submissions among the events of a trace, in order. -/
def submissions (tr : List (Int × Event)) : List Event :=
  (tr.map Prod.snd).filter (fun e =>
    match e with
    | .ReportSuccess => true
    | .ReportFailure _ => true
    | _ => false)

/-- The time at which the timeout watcher was armed, if it was. -/
def armedAt : List (Int × Event) → Option Int
  | [] => none
  | (t, .AfterFunc _) :: _ => some t
  | _ :: tr => armedAt tr

/-- The time at which the first verdict submission begins, if there is one. -/
def submittedAt : List (Int × Event) → Option Int
  | [] => none
  | (t, .ReportSuccess) :: _ => some t
  | (t, .ReportFailure _) :: _ => some t
  | _ :: tr => submittedAt tr

/-- The time at which the delay sleep begins, if there is one. -/
def sleptAt : List (Int × Event) → Option Int
  | [] => none
  | (t, .Sleep _) :: _ => some t
  | _ :: tr => sleptAt tr

/-! ## Example worlds -/

/-- A run started on 2026-11-04 with no variable set, a deadline 20 minutes away, and
collaborators that answer at once and without error. -/
def baseWorld : World where
  env := fun _ => none
  GetDeadline := (⟨1793794800000000000⟩, none)
  Now := ⟨1793793600000000000⟩
  ParseDuration := ParseDuration
  WaitForKuberhealthy := none
  ReportSuccess := none
  ReportFailure := fun _ => none
  waitNanos := 0
  reportNanos := 0

/-- The deadline is 300 years away. -/
def farWorld : World :=
  { baseWorld with GetDeadline := (⟨11254593600000000000⟩, none) }

/-- Both variables are set, to the empty value. -/
def emptyWorld : World :=
  { baseWorld with env := fun k =>
      if k = "REPORT_FAILURE" ∨ k = "REPORT_DELAY" then some "" else none }

/-- REPORT_FAILURE is "true" and REPORT_DELAY is "1s". -/
def failWorld : World :=
  { baseWorld with env := fun k =>
      if k = "REPORT_FAILURE" then some "true"
      else if k = "REPORT_DELAY" then some "1s" else none }

/-- REPORT_FAILURE is "notabool"; the transport fails as well. -/
def notABoolWorld : World :=
  { baseWorld with
      env := fun k => if k = "REPORT_FAILURE" then some "notabool" else none
      ReportFailure := fun _ => some (.errorsNew "connection refused") }

/-- The deadline is 7 seconds away and REPORT_DELAY is "10s". -/
def lateWorld : World :=
  { baseWorld with
      env := fun k => if k = "REPORT_DELAY" then some "10s" else none
      GetDeadline := (⟨1793793607000000000⟩, none) }

/-- The transport rejects the success report. -/
def transportErrorWorld : World :=
  { baseWorld with ReportSuccess := some (.errorsNew "connection refused") }

/-- The readiness wait expires with an error. -/
def notReadyWorld : World :=
  { baseWorld with
      WaitForKuberhealthy := some (.errorsNew "context deadline exceeded")
      waitNanos := 60000000000 }

/-- REPORT_FAILURE is "true" and REPORT_DELAY is "1s"; the readiness wait takes 2
seconds, the report 1 second, and the transport rejects the failure report. -/
def slowFailWorld : World :=
  { failWorld with
      ReportFailure := fun _ => some (.errorsNew "connection refused")
      waitNanos := 2000000000
      reportNanos := 1000000000 }

/-- The deadline is 35 seconds away (a time limit of 30 seconds) and the readiness wait
blocks for its whole minute. -/
def stuckWorld : World :=
  { baseWorld with
      GetDeadline := (⟨1793793635000000000⟩, none)
      WaitForKuberhealthy := some (.errorsNew "context deadline exceeded")
      waitNanos := 60000000000 }

/-! ## Auxiliary facts -/

theorem length_eq_zero_iff (s : String) : s.length = 0 ↔ s = "" := by
  constructor
  · intro h
    have hd : s.data = [] := List.length_eq_zero.mp h
    exact String.ext hd
  · intro h
    subst h
    rfl

theorem Getenv_of_set (w : World) (k s : String) (h : w.env k = some s) :
    Getenv w k = s := by
  simp [Getenv, h]

theorem Getenv_of_unset (w : World) (k : String) (h : w.env k = none) :
    Getenv w k = "" := by
  simp [Getenv, h]

/-- What `parseReportFailure` does with the string `os.Getenv` returned. -/
theorem parseReportFailure_eq (w : World) :
    parseReportFailure w =
      if Getenv w reportFailureEnv = "" then (false, none)
      else if (ParseBool (Getenv w reportFailureEnv)).2 = none then
        ((ParseBool (Getenv w reportFailureEnv)).1, none)
      else (false, (ParseBool (Getenv w reportFailureEnv)).2.map
        (GoError.wrapf "failed to parse REPORT_FAILURE env var: ")) := by
  unfold parseReportFailure
  simp only [length_eq_zero_iff]
  split
  · rfl
  · rcases hpb : ParseBool (Getenv w reportFailureEnv) with ⟨b, _ | e⟩
    · simp
    · simp only [reduceCtorEq, if_false, Option.map_some']
      rfl

/-- What `parseReportDelay` does with the string `os.Getenv` returned. -/
theorem parseReportDelay_eq (w : World) :
    parseReportDelay w =
      if Getenv w reportDelayEnv = "" then (defaultReportDelay, none)
      else if (w.ParseDuration (Getenv w reportDelayEnv)).2 = none then
        ((w.ParseDuration (Getenv w reportDelayEnv)).1, none)
      else (0, (w.ParseDuration (Getenv w reportDelayEnv)).2.map
        (GoError.wrapf "failed to parse REPORT_DELAY env var: ")) := by
  unfold parseReportDelay
  simp only [length_eq_zero_iff]
  split
  · rfl
  · rcases hpd : w.ParseDuration (Getenv w reportDelayEnv) with ⟨d, _ | e⟩
    · simp
    · simp only [reduceCtorEq, if_false, Option.map_some']
      rfl

/-! ## C1: the time limit -/

/-- C1, as amended: when the deadline source returns the deadline `D` without error and
the clock reads `T`, `getTimeLimit` returns exactly `D - T - 5s` with a nil error when
that value is positive and no larger than the largest `Duration`, the largest
`Duration` with a nil error when it is larger, and the default of 10 minutes when it is
zero or negative; when the deadline source returns an error it returns the default of
10 minutes together with that error. -/
theorem getTimeLimit_spec (w : World) :
    timeLimitSkew = 5000000000 ∧ defaultTimeLimit = 600000000000 ∧
    (∀ D : Time, w.GetDeadline = (D, none) →
      (0 < D.unixNano - w.Now.unixNano - timeLimitSkew →
        D.unixNano - w.Now.unixNano - timeLimitSkew ≤ maxDuration →
        getTimeLimit w = (D.unixNano - w.Now.unixNano - timeLimitSkew, none)) ∧
      (maxDuration < D.unixNano - w.Now.unixNano - timeLimitSkew →
        getTimeLimit w = (maxDuration, none)) ∧
      (D.unixNano - w.Now.unixNano - timeLimitSkew ≤ 0 →
        (getTimeLimit w).1 = defaultTimeLimit)) ∧
    (∀ (D : Time) (e : GoError), w.GetDeadline = (D, some e) →
      getTimeLimit w = (defaultTimeLimit, some e)) := by
  refine ⟨by decide, by decide, ?_, ?_⟩
  · intro D hD
    have e : D.unixNano - (w.Now.unixNano + timeLimitSkew)
        = D.unixNano - w.Now.unixNano - timeLimitSkew := by ring
    simp only [getTimeLimit, hD, Time.Sub, Time.Add, e]
    generalize D.unixNano - w.Now.unixNano - timeLimitSkew = v
    refine ⟨?_, ?_, ?_⟩
    · intro hpos hle
      rw [if_neg (not_lt.mpr hle), if_neg (not_lt.mpr (le_trans (by decide : minDuration ≤ 0) (le_of_lt hpos))),
        if_neg (not_le.mpr hpos)]
    · intro hgt
      rw [if_pos hgt, if_neg (by decide : ¬ maxDuration ≤ 0)]
    · intro hle
      rw [if_neg (not_lt.mpr (le_trans hle (by decide : (0 : Int) ≤ maxDuration)))]
      by_cases h2 : v < minDuration
      · rw [if_pos h2, if_pos (by decide : minDuration ≤ 0)]
      · rw [if_neg h2, if_pos hle]
  · intro D e hD
    simp only [getTimeLimit, hD]

/-- C1, witness: a deadline 20 minutes away gives 19m55s. -/
theorem getTimeLimit_spec_witness :
    baseWorld.GetDeadline = (baseWorld.Now.Add (20 * Minute), none) ∧
    getTimeLimit baseWorld = (19 * Minute + 55 * Second, none) :=
  ⟨by decide,
   ((getTimeLimit_spec baseWorld).2.2.1 ⟨1793794800000000000⟩ rfl).1
     (by decide) (by decide)⟩

/-- C1, as stated, fails: with a deadline 300 years away `D - T - 5s` is positive, yet
`getTimeLimit` returns the largest `Duration`, which is smaller. -/
theorem getTimeLimit_far_deadline :
    farWorld.GetDeadline.2 = none ∧
    0 < farWorld.GetDeadline.1.unixNano - farWorld.Now.unixNano - 5 * Second ∧
    getTimeLimit farWorld ≠
      (farWorld.GetDeadline.1.unixNano - farWorld.Now.unixNano - 5 * Second, none) ∧
    getTimeLimit farWorld = (9223372036854775807, none) := by
  decide

/-! ## C6: REPORT_FAILURE -/

/-- C6, as amended: when REPORT_FAILURE is unset, or set to the empty value,
`parseReportFailure` returns false with no error; when its value is one of 1, t, T,
TRUE, true, True it returns true with no error; when it is one of 0, f, F, FALSE, false,
False it returns false with no error; for every other value, which is not empty, it
returns an error, wrapping the one of `strconv.ParseBool`. -/
theorem parseReportFailure_spec (w : World) :
    (w.env reportFailureEnv = none → parseReportFailure w = (false, none)) ∧
    (w.env reportFailureEnv = some "" → parseReportFailure w = (false, none)) ∧
    (∀ s, w.env reportFailureEnv = some s →
      (s ∈ ["1", "t", "T", "TRUE", "true", "True"] →
        parseReportFailure w = (true, none)) ∧
      (s ∈ ["0", "f", "F", "FALSE", "false", "False"] →
        parseReportFailure w = (false, none)) ∧
      (s ≠ "" → s ∉ ["1", "t", "T", "TRUE", "true", "True"] →
        s ∉ ["0", "f", "F", "FALSE", "false", "False"] →
        parseReportFailure w = (false, some (.wrapf
          "failed to parse REPORT_FAILURE env var: " (.numError "ParseBool" s))))) := by
  refine ⟨?_, ?_, ?_⟩
  · intro h
    rw [parseReportFailure_eq, Getenv_of_unset w _ h]
    rfl
  · intro h
    rw [parseReportFailure_eq, Getenv_of_set w _ _ h]
    rfl
  · intro s h
    rw [parseReportFailure_eq, Getenv_of_set w _ _ h]
    refine ⟨?_, ?_, ?_⟩
    · intro hs
      simp only [List.mem_cons, List.mem_singleton, List.not_mem_nil, or_false] at hs
      rcases hs with rfl | rfl | rfl | rfl | rfl | rfl <;> decide
    · intro hs
      simp only [List.mem_cons, List.mem_singleton, List.not_mem_nil, or_false] at hs
      rcases hs with rfl | rfl | rfl | rfl | rfl | rfl <;> decide
    · intro hne ht hf
      simp only [List.mem_cons, List.mem_singleton, List.not_mem_nil, or_false,
        not_or] at ht hf
      obtain ⟨t1, t2, t3, t4, t5, t6⟩ := ht
      obtain ⟨f1, f2, f3, f4, f5, f6⟩ := hf
      simp [ParseBool, hne, t1, t2, t3, t4, t5, t6, f1, f2, f3, f4, f5, f6]

/-- C6, witness: REPORT_FAILURE set to "true" gives true, set to "notabool" an error. -/
theorem parseReportFailure_spec_witness :
    parseReportFailure failWorld = (true, none) ∧
    parseReportFailure notABoolWorld = (false, some (.wrapf
      "failed to parse REPORT_FAILURE env var: " (.numError "ParseBool" "notabool"))) :=
  ⟨((parseReportFailure_spec failWorld).2.2 "true" (by decide)).1 (by decide),
   ((parseReportFailure_spec notABoolWorld).2.2 "notabool" (by decide)).2.2
     (by decide) (by decide) (by decide)⟩

/-- C6, as stated, fails: the empty string is not a valid boolean string
(`strconv.ParseBool` rejects it), yet with REPORT_FAILURE set to it
`parseReportFailure` returns the default false and no error. -/
theorem parseReportFailure_empty_value :
    emptyWorld.env "REPORT_FAILURE" = some "" ∧
    (ParseBool "").2 ≠ none ∧
    parseReportFailure emptyWorld = (false, none) := by
  decide

/-! ## C7: REPORT_DELAY -/

/-- C7, as amended: when REPORT_DELAY is unset, or set to the empty value,
`parseReportDelay` returns exactly 5 seconds with no error; when its value is not empty
and `time.ParseDuration` accepts it, it returns exactly the duration parsed with no
error; when its value is not empty and `time.ParseDuration` rejects it, it returns an
error, wrapping that of the parser. -/
theorem parseReportDelay_spec (w : World) :
    defaultReportDelay = 5000000000 ∧
    (w.env reportDelayEnv = none → parseReportDelay w = (defaultReportDelay, none)) ∧
    (w.env reportDelayEnv = some "" → parseReportDelay w = (defaultReportDelay, none)) ∧
    (∀ s, w.env reportDelayEnv = some s → s ≠ "" →
      (∀ d, w.ParseDuration s = (d, none) → parseReportDelay w = (d, none)) ∧
      (∀ d e, w.ParseDuration s = (d, some e) →
        parseReportDelay w =
          (0, some (.wrapf "failed to parse REPORT_DELAY env var: " e)))) := by
  refine ⟨by decide, ?_, ?_, ?_⟩
  · intro h
    rw [parseReportDelay_eq, Getenv_of_unset w _ h]
    rfl
  · intro h
    rw [parseReportDelay_eq, Getenv_of_set w _ _ h]
    rfl
  · intro s h hne
    rw [parseReportDelay_eq, Getenv_of_set w _ _ h]
    refine ⟨?_, ?_⟩
    · intro d hd
      simp [hne, hd]
    · intro d e hd
      simp [hne, hd]

/-- C7, witness: REPORT_DELAY set to "1s" gives one second; unset gives 5 seconds. -/
theorem parseReportDelay_spec_witness :
    parseReportDelay failWorld = (1 * Second, none) ∧
    parseReportDelay baseWorld = (5 * Second, none) :=
  ⟨((parseReportDelay_spec failWorld).2.2.2 "1s" (by decide) (by decide)).1
     (1 * Second) (by decide),
   (parseReportDelay_spec baseWorld).2.1 (by decide)⟩

/-- C7, as stated, fails: the empty string is a malformed duration string
(`time.ParseDuration` rejects it), yet with REPORT_DELAY set to it `parseReportDelay`
returns the default of 5 seconds and no error. -/
theorem parseReportDelay_empty_value :
    emptyWorld.env "REPORT_DELAY" = some "" ∧
    (emptyWorld.ParseDuration "").2 ≠ none ∧
    parseReportDelay emptyWorld = (5 * Second, none) := by
  decide

/-! ## C8: the configuration -/

/-- C8, as amended: `loadConfig` returns an error if and only if REPORT_FAILURE holds a
value that is not empty and that `strconv.ParseBool` rejects, or REPORT_DELAY holds a
value that is not empty and that `time.ParseDuration` rejects (an empty value counts as
unset); otherwise, whatever the deadline source returns, it returns a configuration with
a nil error, whose `ReportFailure` and `ReportDelay` are exactly the parsed values (the
defaults false and 5 seconds for an unset or empty variable) and whose `TimeLimit` is
exactly the value `getTimeLimit` returned. -/
theorem loadConfig_spec (w : World) :
    ((loadConfig w).2 ≠ none ↔
      (Getenv w reportFailureEnv ≠ "" ∧ (ParseBool (Getenv w reportFailureEnv)).2 ≠ none) ∨
      (Getenv w reportDelayEnv ≠ "" ∧
        (w.ParseDuration (Getenv w reportDelayEnv)).2 ≠ none)) ∧
    ((loadConfig w).2 = none →
      loadConfig w = (some
        { ReportFailure :=
            if Getenv w reportFailureEnv = "" then false
            else (ParseBool (Getenv w reportFailureEnv)).1
          ReportDelay :=
            if Getenv w reportDelayEnv = "" then defaultReportDelay
            else (w.ParseDuration (Getenv w reportDelayEnv)).1
          TimeLimit := (getTimeLimit w).1 }, none)) := by
  unfold loadConfig
  rw [parseReportFailure_eq, parseReportDelay_eq]
  by_cases hf : Getenv w reportFailureEnv = ""
  · by_cases hd : Getenv w reportDelayEnv = ""
    · simp [hf, hd]
    · rcases hpd : w.ParseDuration (Getenv w reportDelayEnv) with ⟨d, _ | e⟩
      · simp [hf, hd, hpd]
      · simp [hf, hd, hpd]
  · rcases hpb : ParseBool (Getenv w reportFailureEnv) with ⟨b, _ | e⟩
    · by_cases hd : Getenv w reportDelayEnv = ""
      · simp [hf, hd, hpb]
      · rcases hpd : w.ParseDuration (Getenv w reportDelayEnv) with ⟨d, _ | e⟩
        · simp [hf, hd, hpb, hpd]
        · simp [hf, hd, hpb, hpd]
    · simp [hf, hpb]

/-- C8, witness: with REPORT_FAILURE "true", REPORT_DELAY "1s" and a deadline 20
minutes away the configuration is (true, 1s, 19m55s). -/
theorem loadConfig_spec_witness :
    loadConfig failWorld = (some
      { ReportFailure := true, ReportDelay := 1 * Second,
        TimeLimit := 19 * Minute + 55 * Second }, none) :=
  (loadConfig_spec failWorld).2 (by decide)

/-- C8, as stated, fails: with both variables set to the empty value, which is
neither a boolean nor a duration, `loadConfig` returns a configuration and no error. -/
theorem loadConfig_empty_values :
    emptyWorld.env "REPORT_FAILURE" = some "" ∧ (ParseBool "").2 ≠ none ∧
    emptyWorld.env "REPORT_DELAY" = some "" ∧ (emptyWorld.ParseDuration "").2 ≠ none ∧
    loadConfig emptyWorld = (some
      { ReportFailure := false, ReportDelay := 5 * Second,
        TimeLimit := 19 * Minute + 55 * Second }, none) := by
  decide

/-! ## The run of `main` -/

/-- A resolved configuration has a positive time limit. -/
theorem timeLimit_pos (w : World) (cfg : CheckConfig)
    (h : loadConfig w = (some cfg, none)) : 0 < cfg.TimeLimit := by
  have hg : 0 < (getTimeLimit w).1 := by
    unfold getTimeLimit
    rcases hD : w.GetDeadline with ⟨D, _ | e⟩
    · simp only
      split
      · exact (by decide : (0 : Int) < defaultTimeLimit)
      · rename_i hv
        exact not_le.mp hv
    · exact (by decide : (0 : Int) < defaultTimeLimit)
  have hc : cfg.TimeLimit = (getTimeLimit w).1 := by
    unfold loadConfig at h
    rcases hf : parseReportFailure w with ⟨b, _ | e⟩
    · rcases hd : parseReportDelay w with ⟨d, _ | e⟩
      · rw [hf, hd] at h
        simp only [Prod.mk.injEq, Option.some.injEq, and_true] at h
        rw [← h]
      · rw [hf, hd] at h
        simp at h
    · rw [hf] at h
      simp at h
  rw [hc]
  exact hg

/-- The run of `main` when the configuration resolves: the delay sleep, then the arming
of the watcher, then the readiness wait, then one verdict submission; the timer ends
the process during the wait when the wait outlasts the time limit, and during the report
when the wait and the report together do. -/
theorem main_resolved_eq (w : World) (cfg : CheckConfig)
    (h : loadConfig w = (some cfg, none)) :
    main w =
      if cfg.TimeLimit < w.waitNanos then
        (1, { clock := (if cfg.ReportDelay ≤ 0 then 0 else cfg.ReportDelay) + cfg.TimeLimit
              trace :=
                [(0, .Sleep cfg.ReportDelay),
                 (if cfg.ReportDelay ≤ 0 then 0 else cfg.ReportDelay,
                   .AfterFunc cfg.TimeLimit),
                 (if cfg.ReportDelay ≤ 0 then 0 else cfg.ReportDelay,
                   .WaitForKuberhealthy)] })
      else if cfg.TimeLimit < (w.waitNanos : Int) + w.reportNanos then
        (1, { clock := (if cfg.ReportDelay ≤ 0 then 0 else cfg.ReportDelay) + cfg.TimeLimit
              trace :=
                [(0, .Sleep cfg.ReportDelay),
                 (if cfg.ReportDelay ≤ 0 then 0 else cfg.ReportDelay,
                   .AfterFunc cfg.TimeLimit),
                 (if cfg.ReportDelay ≤ 0 then 0 else cfg.ReportDelay,
                   .WaitForKuberhealthy),
                 ((if cfg.ReportDelay ≤ 0 then 0 else cfg.ReportDelay) + w.waitNanos,
                   if cfg.ReportFailure then .ReportFailure ["Test has failed!"]
                   else .ReportSuccess)] })
      else
        (0, { clock := (if cfg.ReportDelay ≤ 0 then 0 else cfg.ReportDelay)
                + w.waitNanos + w.reportNanos
              trace :=
                [(0, .Sleep cfg.ReportDelay),
                 (if cfg.ReportDelay ≤ 0 then 0 else cfg.ReportDelay,
                   .AfterFunc cfg.TimeLimit),
                 (if cfg.ReportDelay ≤ 0 then 0 else cfg.ReportDelay,
                   .WaitForKuberhealthy),
                 ((if cfg.ReportDelay ≤ 0 then 0 else cfg.ReportDelay) + w.waitNanos,
                   if cfg.ReportFailure then .ReportFailure ["Test has failed!"]
                   else .ReportSuccess)] }) := by
  have hpos : ¬ cfg.TimeLimit ≤ 0 := not_le.mpr (timeLimit_pos w cfg h)
  generalize hc : (if cfg.ReportDelay ≤ 0 then (0 : Int) else cfg.ReportDelay) = c
  unfold main
  rw [h]
  have hw : ∀ p : Proc, (match w.WaitForKuberhealthy with
      | some _ => p
      | none => p) = p := by
    intro p
    cases w.WaitForKuberhealthy <;> rfl
  simp only [hw, reportCheckResult, startTimeoutWatcher, Sleep, Proc.emit, Proc.start,
    if_neg hpos, List.nil_append, List.cons_append, zero_add, add_zero, hc, timedOut,
    firesAt, exitOnTimeout, add_lt_add_iff_left]
  by_cases h1 : cfg.TimeLimit < w.waitNanos
  · simp only [h1, if_true]
  · simp only [h1, if_false]
    by_cases h2 : cfg.TimeLimit < (w.waitNanos : Int) + w.reportNanos
    · cases hrf : cfg.ReportFailure <;>
        simp only [Bool.false_eq_true, if_false, if_true, firesAt, add_assoc,
          add_lt_add_iff_left, h2]
    · cases hrf : cfg.ReportFailure
      · simp only [Bool.false_eq_true, if_false, firesAt, add_assoc,
          add_lt_add_iff_left, h2]
        cases w.ReportSuccess <;> rfl
      · simp only [if_true, firesAt, add_assoc, add_lt_add_iff_left, h2, if_false]
        cases w.ReportFailure ["Test has failed!"] <;> rfl

/-- The run of `main` when the configuration resolves and the timer does not fire. -/
theorem main_trace_of_resolved (w : World) (cfg : CheckConfig)
    (h : loadConfig w = (some cfg, none))
    (hno : (w.waitNanos : Int) + w.reportNanos ≤ cfg.TimeLimit) :
    main w = (0,
      { clock := (if cfg.ReportDelay ≤ 0 then 0 else cfg.ReportDelay)
          + w.waitNanos + w.reportNanos
        trace :=
          [(0, .Sleep cfg.ReportDelay),
           (if cfg.ReportDelay ≤ 0 then 0 else cfg.ReportDelay, .AfterFunc cfg.TimeLimit),
           (if cfg.ReportDelay ≤ 0 then 0 else cfg.ReportDelay, .WaitForKuberhealthy),
           ((if cfg.ReportDelay ≤ 0 then 0 else cfg.ReportDelay) + w.waitNanos,
             if cfg.ReportFailure then .ReportFailure ["Test has failed!"]
             else .ReportSuccess)] }) := by
  have h1 : ¬ cfg.TimeLimit < (w.waitNanos : Int) :=
    not_lt.mpr (le_trans (le_add_of_nonneg_right (Int.ofNat_nonneg _)) hno)
  have h2 : ¬ cfg.TimeLimit < (w.waitNanos : Int) + w.reportNanos := not_lt.mpr hno
  rw [main_resolved_eq w cfg h, if_neg h1, if_neg h2]

/-- The run of `main` when the configuration resolves and the timer fires: the process
exits with status 1. -/
theorem main_timed_out (w : World) (cfg : CheckConfig)
    (h : loadConfig w = (some cfg, none))
    (hfire : cfg.TimeLimit < (w.waitNanos : Int) + w.reportNanos) :
    (main w).1 = 1 := by
  rw [main_resolved_eq w cfg h]
  by_cases h1 : cfg.TimeLimit < w.waitNanos
  · rw [if_pos h1]
  · rw [if_neg h1, if_pos hfire]

/-- A time limit of 30 seconds and a readiness wait of a minute: the timer fires 35
seconds into the run, during the wait; the process exits with status 1 and no verdict
is submitted. -/
theorem main_stuck_in_wait :
    main stuckWorld = (1,
      { clock := 35 * Second
        trace := [(0, .Sleep (5 * Second)), (5 * Second, .AfterFunc (30 * Second)),
                  (5 * Second, .WaitForKuberhealthy)] }) ∧
    submissions (main stuckWorld).2.trace = [] := by
  decide

/-! ## C4: the verdict submission -/

/-- C4: for every configuration, `reportCheckResult` performs exactly one transport
call, `ReportFailure` with the reason list ["Test has failed!"] when
`cfg.ReportFailure` is true and `ReportSuccess` when it is false, never both, and
returns the error of that call (or nil) unmodified. -/
theorem reportCheckResult_spec (w : World) (cfg : CheckConfig) (p : Proc) :
    (cfg.ReportFailure = true →
      (reportCheckResult w cfg p).1 = w.ReportFailure ["Test has failed!"] ∧
      (reportCheckResult w cfg p).2.trace =
        p.trace ++ [(p.clock, .ReportFailure ["Test has failed!"])]) ∧
    (cfg.ReportFailure = false →
      (reportCheckResult w cfg p).1 = w.ReportSuccess ∧
      (reportCheckResult w cfg p).2.trace = p.trace ++ [(p.clock, .ReportSuccess)]) ∧
    (submissions (reportCheckResult w cfg p).2.trace).length
      = (submissions p.trace).length + 1 ∧
    (reportCheckResult w cfg p).2.trace.length = p.trace.length + 1 := by
  unfold reportCheckResult
  cases hc : cfg.ReportFailure <;> simp [Proc.emit, submissions]

/-- C4, witness: a configuration with `ReportFailure` true makes the one call
`ReportFailure(["Test has failed!"])`, one with false the one call `ReportSuccess`. -/
theorem reportCheckResult_spec_witness :
    (reportCheckResult baseWorld ⟨true, 5 * Second, 10 * Minute⟩ Proc.start).2.trace
      = [(0, .ReportFailure ["Test has failed!"])] ∧
    (reportCheckResult transportErrorWorld ⟨false, 5 * Second, 10 * Minute⟩ Proc.start).1
      = some (.errorsNew "connection refused") :=
  ⟨((reportCheckResult_spec baseWorld ⟨true, 5 * Second, 10 * Minute⟩ Proc.start).1
      rfl).2,
   ((reportCheckResult_spec transportErrorWorld ⟨false, 5 * Second, 10 * Minute⟩
      Proc.start).2.1 rfl).1⟩

/-! ## C5: a configuration error -/

/-- C5: whenever `loadConfig` returns an error `e`, the run consists of exactly one
event, the submission `ReportFailure([e.Error()])` (so no `ReportSuccess`, no delay
sleep, no arming of the watcher and no readiness wait), and the process exits with
status 1, whatever that submission returns. -/
theorem main_config_error (w : World) (e : GoError) (h : (loadConfig w).2 = some e) :
    main w = (1, { clock := w.reportNanos, trace := [(0, .ReportFailure [e.Error])] }) := by
  unfold main
  rcases hl : loadConfig w with ⟨c, _ | e1⟩
  · rw [hl] at h
    simp at h
  · rw [hl] at h
    simp only [Option.some.injEq] at h
    subst h
    simp only [reportFailureAndExit, Proc.emit, Proc.start, zero_add, List.nil_append]
    cases w.ReportFailure [e1.Error] <;> rfl

/-- C5, witness: with REPORT_FAILURE set to "notabool" and a failing transport, the run
is the one call `ReportFailure` with the message of the parse error, and status 1. -/
theorem main_config_error_witness :
    notABoolWorld.ReportFailure
      [(GoError.wrapf "failed to parse REPORT_FAILURE env var: "
        (.numError "ParseBool" "notabool")).Error] ≠ none ∧
    main notABoolWorld = (1, { clock := 0, trace := [(0, .ReportFailure
      ["failed to parse REPORT_FAILURE env var: strconv.ParseBool: parsing \"notabool\": invalid syntax"])] }) :=
  ⟨by decide,
   main_config_error notABoolWorld
     (.wrapf "failed to parse REPORT_FAILURE env var: " (.numError "ParseBool" "notabool"))
     (by decide)⟩

/-! ## C2: when the watcher is armed -/

/-- C2, the code at a run with a time limit of 2 seconds (deadline 7 seconds away) and
REPORT_DELAY "10s": `main` sleeps the 10 seconds first and arms the watcher only then,
so that it would fire 12 seconds into the run; the verdict is submitted at 10 seconds,
after the deadline, and the process exits with status 0. -/
theorem main_sleeps_before_arming :
    lateWorld.env "REPORT_DELAY" = some "10s" ∧
    lateWorld.GetDeadline = (lateWorld.Now.Add (7 * Second), none) ∧
    loadConfig lateWorld = (some
      { ReportFailure := false, ReportDelay := 10 * Second, TimeLimit := 2 * Second },
      none) ∧
    main lateWorld = (0,
      { clock := 10 * Second
        trace := [(0, .Sleep (10 * Second)), (10 * Second, .AfterFunc (2 * Second)),
                  (10 * Second, .WaitForKuberhealthy), (10 * Second, .ReportSuccess)] }) ∧
    sleptAt (main lateWorld).2.trace = some 0 ∧
    armedAt (main lateWorld).2.trace = some (10 * Second) ∧
    firesAt (main lateWorld).2.trace = some (12 * Second) ∧
    submittedAt (main lateWorld).2.trace = some (10 * Second) := by
  decide

/-! ## C3: the exit status -/

/-- C3, as amended: on the normal path of `main` (configuration resolved, and no timeout
fired: the readiness wait and the report together take no longer than the time limit,
for which the timer is armed just before them) the process exit code is 0, whether the
verdict submission that `main` makes returns no error or a transport error; the error
is only logged. -/
theorem main_exit_status (w : World) (cfg : CheckConfig)
    (h : loadConfig w = (some cfg, none))
    (hno : (w.waitNanos : Int) + w.reportNanos ≤ cfg.TimeLimit) :
    (main w).1 = 0 ∧
    (main w).2 = (reportCheckResult w cfg
      ((startTimeoutWatcher cfg.TimeLimit (Sleep cfg.ReportDelay Proc.start)).emit
        .WaitForKuberhealthy w.waitNanos)).2 := by
  have hpos : ¬ cfg.TimeLimit ≤ 0 := not_le.mpr (timeLimit_pos w cfg h)
  rw [main_trace_of_resolved w cfg h hno]
  refine ⟨rfl, ?_⟩
  simp only [reportCheckResult, startTimeoutWatcher, Sleep, Proc.emit, Proc.start,
    if_neg hpos, List.nil_append, List.cons_append, zero_add, add_zero]
  cases cfg.ReportFailure <;> simp

/-- C3, witness: with a readiness wait of 2 seconds, a report of 1 second and a time
limit of 19m55s the timer does not fire; the transport rejects the failure report, and
`main` exits with status 0. -/
theorem main_exit_status_witness :
    (reportCheckResult slowFailWorld
      { ReportFailure := true, ReportDelay := 1 * Second,
        TimeLimit := 19 * Minute + 55 * Second }
      { clock := 3 * Second
        trace := [(0, .Sleep (1 * Second)),
                  (1 * Second, .AfterFunc (19 * Minute + 55 * Second)),
                  (1 * Second, .WaitForKuberhealthy)] }).1
      = some (.errorsNew "connection refused") ∧
    (main slowFailWorld).1 = 0 :=
  ⟨by decide,
   (main_exit_status slowFailWorld
    { ReportFailure := true, ReportDelay := 1 * Second,
      TimeLimit := 19 * Minute + 55 * Second } (by decide) (by decide)).1⟩

/-- C3, as stated, fails: the configuration resolves, the verdict submission that
`main` makes returns a transport error, and the exit code is 0. -/
theorem main_exit_status_transport_error :
    loadConfig transportErrorWorld = (some
      { ReportFailure := false, ReportDelay := 5 * Second,
        TimeLimit := 19 * Minute + 55 * Second }, none) ∧
    (reportCheckResult transportErrorWorld
      { ReportFailure := false, ReportDelay := 5 * Second,
        TimeLimit := 19 * Minute + 55 * Second }
      { clock := 5 * Second
        trace := [(0, .Sleep (5 * Second)),
                  (5 * Second, .AfterFunc (19 * Minute + 55 * Second)),
                  (5 * Second, .WaitForKuberhealthy)] }).1
      = some (.errorsNew "connection refused") ∧
    main transportErrorWorld = (0,
      { clock := 5 * Second
        trace := [(0, .Sleep (5 * Second)),
                  (5 * Second, .AfterFunc (19 * Minute + 55 * Second)),
                  (5 * Second, .WaitForKuberhealthy),
                  (5 * Second, .ReportSuccess)] }) := by
  decide

/-! ## C9: the time limit is positive -/

/-- C9: every configuration that `loadConfig` returns successfully has
`TimeLimit > 0`; hence `startTimeoutWatcher` does not take its skip branch on it, and
the run of `main` arms the watcher, with that limit. -/
theorem timeLimit_pos_and_armed (w : World) (cfg : CheckConfig)
    (h : loadConfig w = (some cfg, none)) :
    0 < cfg.TimeLimit ∧
    (∀ p : Proc, startTimeoutWatcher cfg.TimeLimit p = p.emit (.AfterFunc cfg.TimeLimit) 0) ∧
    (∃ t, (t, Event.AfterFunc cfg.TimeLimit) ∈ (main w).2.trace) ∧
    armedAt (main w).2.trace ≠ none := by
  have hpos := timeLimit_pos w cfg h
  refine ⟨hpos, ?_, ?_, ?_⟩
  · intro p
    simp only [startTimeoutWatcher, if_neg (not_le.mpr hpos)]
  · rw [main_resolved_eq w cfg h]
    split_ifs <;> exact ⟨_, List.mem_cons_of_mem _ (List.mem_cons_self _ _)⟩
  · rw [main_resolved_eq w cfg h]
    split_ifs <;> simp [armedAt]

/-- C9, witness: when the deadline source fails, or the deadline has passed, the time
limit is the default of 10 minutes, and the watcher is armed with it. -/
theorem timeLimit_pos_and_armed_witness :
    (0 : Int) < 10 * Minute ∧
    armedAt (main { baseWorld with GetDeadline := (⟨0⟩, none) }).2.trace ≠ none :=
  ⟨(timeLimit_pos_and_armed
      { baseWorld with GetDeadline := (⟨0⟩, some (.errorsNew "no deadline")) }
      { ReportFailure := false, ReportDelay := 5 * Second, TimeLimit := 10 * Minute }
      (by decide)).1,
   (timeLimit_pos_and_armed { baseWorld with GetDeadline := (⟨0⟩, none) }
      { ReportFailure := false, ReportDelay := 5 * Second, TimeLimit := 10 * Minute }
      (by decide)).2.2.2⟩

/-! ## C10: one report after the readiness wait -/

/-- C10: on every run whose configuration resolves and on which the timeout does not
fire (the readiness wait and the report together take no longer than the time limit),
for every outcome `r` of the readiness wait (nil or an error), the trace ends with the
readiness wait followed by one call of the result transport, the one
`reportCheckResult` makes, and holds no other verdict submission. -/
theorem main_reports_once (w : World) (cfg : CheckConfig) (r : Option GoError)
    (h : loadConfig w = (some cfg, none))
    (hno : (w.waitNanos : Int) + w.reportNanos ≤ cfg.TimeLimit) :
    (∃ pre t t1, (main { w with WaitForKuberhealthy := r }).2.trace =
        pre ++ [(t, .WaitForKuberhealthy),
          (t1, if cfg.ReportFailure then .ReportFailure ["Test has failed!"]
               else .ReportSuccess)] ∧
      submissions pre = []) ∧
    submissions (main { w with WaitForKuberhealthy := r }).2.trace =
      [if cfg.ReportFailure then .ReportFailure ["Test has failed!"]
       else .ReportSuccess] := by
  have h1 : loadConfig { w with WaitForKuberhealthy := r } = (some cfg, none) := h
  rw [main_trace_of_resolved _ cfg h1 hno]
  refine ⟨⟨[(0, .Sleep cfg.ReportDelay),
      (if cfg.ReportDelay ≤ 0 then 0 else cfg.ReportDelay, .AfterFunc cfg.TimeLimit)],
      _, _, rfl, rfl⟩, ?_⟩
  cases cfg.ReportFailure <;> rfl

/-- C10, witness: when the readiness wait expires after its minute with an error, well
within the time limit of 19m55s, the success report is still made, once, after the
wait. -/
theorem main_reports_once_witness :
    submissions (main notReadyWorld).2.trace = [.ReportSuccess] :=
  (main_reports_once notReadyWorld
    { ReportFailure := false, ReportDelay := 5 * Second,
      TimeLimit := 19 * Minute + 55 * Second }
    (some (.errorsNew "context deadline exceeded")) (by decide) (by decide)).2

end TestCheck
